import Mathlib

/-!
Shallow embedding of `src/server/main.go` from volchok96/go-together-ai:
a minimal HTTP gateway that forwards text-generation requests to the
Together completion API and relays either a single JSON reply or an
incrementally flushed text stream back to the caller.

The embedding models the observable behaviour of the two functions
`generateHandler` and `queryExternalAPI`:
 - the `http.ResponseWriter` is modelled as a trace of writer events
   (header sets, an explicit status code from `http.Error`, raw body
   writes from `fmt.Fprintf`, the encoded-response write from
   `json.Encoder.Encode`, and flushes);
 - the upstream HTTP exchange is modelled by an oracle function from the
   built outbound request to an `Upstream` outcome: a network error, or a
   response carrying a status code together with the two decoder views of
   its body (the chunk-stream view used in streaming mode and the
   single-document view used in non-streaming mode);
 - a decode failure is an explicit `malformed` element of the chunk
   stream (streaming) or a `DecodeResult.error` (non-streaming);
 - `flusher, _ := w.(http.Flusher)` is modelled by an `isFlusher` flag;
   calling `Flush` when the assertion failed is a nil-interface method
   call, modelled as a `panicked` outcome;
 - Go's `float64` temperature is modelled as `Rat`: the only operations
   the program performs on it are an exact comparison with zero and the
   assignment of the literal `0.1`, both exact in `float64`.
-/

namespace GoTogether

/-- `GenerationRequest` from main.go: the inbound JSON body. -/
structure GenerationRequest where
  model : String
  prompt : String
  stream : Bool
  maxTokens : Int
  temperature : Rat
deriving DecidableEq, Repr

/-- `GenerationResponse` from main.go: the non-streaming reply shape.
`created_at` carries `omitempty`. -/
structure GenerationResponse where
  model : String
  response : String
  createdAt : String
deriving DecidableEq, Repr

/-- The anonymous `delta` struct decoded from one streamed chunk. -/
structure Delta where
  content : String
deriving DecidableEq, Repr

/-- One element of the `choices` list of a streamed chunk. -/
structure StreamChoice where
  delta : Delta
deriving DecidableEq, Repr

/-- The anonymous per-chunk decode target in the streaming loop:
`struct \x7b Choices []struct \x7b Delta ... \x7d \x7d`. -/
structure UpstreamChunk where
  choices : List StreamChoice
deriving DecidableEq, Repr

/-- One element of the `choices` list of the non-streaming result. -/
structure TextChoice where
  text : String
deriving DecidableEq, Repr

/-- The anonymous decode target of the non-streaming branch. -/
structure UpstreamResult where
  choices : List TextChoice
deriving DecidableEq, Repr

/-- Outcome of one `decoder.Decode(&chunk)` step of the streaming loop:
either a successfully decoded chunk or a decode failure. -/
inductive ChunkResult where
  | ok (chunk : UpstreamChunk)
  | malformed
deriving DecidableEq, Repr

/-- Outcome of decoding a JSON value (used for the inbound request body
and for the non-streaming upstream document). -/
inductive DecodeResult (α : Type) where
  | ok (val : α)
  | error (msg : String)
deriving DecidableEq, Repr

/-- One observable event on the `http.ResponseWriter`. `write` is a raw
body write (`fmt.Fprintf` or the body line of `http.Error`);
`writeResponse` is the `json.NewEncoder(w).Encode(respJSON)` call, which
writes the JSON encoding of the `GenerationResponse` followed by a
newline. -/
inductive WEvent where
  | setHeader (name value : String)
  | status (code : Nat)
  | write (s : String)
  | writeResponse (resp : GenerationResponse)
  | flush
deriving DecidableEq, Repr

/-- The JSON body of the outbound request (`requestBody` in main.go). -/
structure UpstreamRequestBody where
  model : String
  prompt : String
  maxTokens : Int
  temperature : Rat
  stream : Bool
deriving DecidableEq, Repr

/-- The outbound HTTP request built by `queryExternalAPI`. -/
structure UpstreamRequest where
  url : String
  method : String
  authorization : String
  contentType : String
  body : UpstreamRequestBody
deriving DecidableEq, Repr

/-- Result of the upstream HTTP exchange: a network-level failure, or a
response with a status code and the two decoder views of its body.
The status code is carried because the source never reads it; the
streaming view is the sequence of `Decode` outcomes the chunk decoder
would produce, the document view the outcome of the one-shot decode. -/
inductive Upstream where
  | netError (msg : String)
  | ok (statusCode : Nat) (streamView : List ChunkResult)
      (docView : DecodeResult UpstreamResult)

/-- Result of `queryExternalAPI`: a normal return carrying the writer
events emitted and the returned `error` (`none` for `nil`), or a panic
(nil-interface `Flush`) with the events emitted before it. -/
inductive QueryResult where
  | ret (events : List WEvent) (err : Option String)
  | panicked (events : List WEvent)
deriving DecidableEq, Repr

/-- Result of `generateHandler`: the full writer trace, or a panic. -/
inductive HandlerOutcome where
  | ret (events : List WEvent)
  | panicked (events : List WEvent)
deriving DecidableEq, Repr

/-- `TogetherAPIURL` from main.go. -/
def TogetherAPIURL : String := "https://api.together.xyz/v1/completions"

/-- The fixed default model identifier from `generateHandler`. -/
def defaultModel : String := "meta-llama/Llama-3-8b-chat-hf"

/-- The defaulting block of `generateHandler`: three sequential `if`
statements rewriting the zero-valued optional fields in place. -/
def applyDefaults (req : GenerationRequest) : GenerationRequest :=
  let req1 := if req.model = "" then { req with model := defaultModel } else req
  let req2 := if req1.maxTokens = 0 then { req1 with maxTokens := 512 } else req1
  if req2.temperature = 0 then { req2 with temperature := (0.1 : Rat) } else req2

/-- The outbound request construction of `queryExternalAPI`: JSON body
mirroring the request, bearer-token authorization, JSON content type,
POST to the fixed endpoint. -/
def buildUpstreamRequest (req : GenerationRequest) (apiKey : String) :
    UpstreamRequest :=
  { url := TogetherAPIURL
    method := "POST"
    authorization := "Bearer " ++ apiKey
    contentType := "application/json"
    body :=
      { model := req.model
        prompt := req.prompt
        maxTokens := req.maxTokens
        temperature := req.temperature
        stream := req.stream } }

/-- Lower-case hex digit, as Go's `encoding/json` uses in `\u00XX`. -/
def hexDigit (n : Nat) : Char :=
  if n < 10 then Char.ofNat (48 + n) else Char.ofNat (87 + n)

/-- Go `encoding/json` escaping of one character inside a JSON string,
with the encoder's default HTML escaping. -/
def escapeChar (c : Char) : String :=
  if c = '"' then "\\\""
  else if c = '\\' then "\\\\"
  else if c = '<' then "\\u003c"
  else if c = '>' then "\\u003e"
  else if c = '&' then "\\u0026"
  else if c = '\n' then "\\n"
  else if c = '\r' then "\\r"
  else if c = '\t' then "\\t"
  else if c.toNat < 32 then
    "\\u00" ++ String.singleton (hexDigit (c.toNat / 16))
      ++ String.singleton (hexDigit (c.toNat % 16))
  else if c = Char.ofNat 8232 then "\\u2028"
  else if c = Char.ofNat 8233 then "\\u2029"
  else String.singleton c

/-- A Go JSON string literal for `s`. -/
def goQuote (s : String) : String :=
  "\"" ++ String.join (s.data.map escapeChar) ++ "\""

/-- Go's `json.Marshal` of a `GenerationResponse`: fields in declaration
order, `created_at` omitted when empty (`omitempty`). -/
def encodeGenerationResponse (r : GenerationResponse) : String :=
  "\x7b\"model\":" ++ goQuote r.model ++ ",\"response\":" ++ goQuote r.response
    ++ (if r.createdAt = "" then ""
        else ",\"created_at\":" ++ goQuote r.createdAt)
    ++ "\x7d"

/-- The three headers set at the top of the streaming branch. -/
def streamHeaders : List WEvent :=
  [WEvent.setHeader "Content-Type" "text/event-stream",
   WEvent.setHeader "Cache-Control" "no-cache",
   WEvent.setHeader "Connection" "keep-alive"]

/-- Outcome of the streaming relay loop. -/
inductive RelayOutcome where
  | ok (events : List WEvent)
  | panicked (events : List WEvent)
deriving DecidableEq, Repr

/-- The `for decoder.More()` loop of the streaming branch: a decode
failure breaks out of the loop; a chunk with at least one choice whose
delta content is non-empty is written with `fmt.Fprintf` and then
`flusher.Flush()` is called — a nil-interface call (panic) when the
writer is not an `http.Flusher`. -/
def relayChunks (isFlusher : Bool) : List ChunkResult → RelayOutcome
  | [] => RelayOutcome.ok []
  | ChunkResult.malformed :: _ => RelayOutcome.ok []
  | ChunkResult.ok chunk :: rest =>
    match chunk.choices with
    | [] => relayChunks isFlusher rest
    | choice :: _ =>
      if choice.delta.content = "" then relayChunks isFlusher rest
      else
        if isFlusher then
          match relayChunks isFlusher rest with
          | RelayOutcome.ok es =>
            RelayOutcome.ok (WEvent.write choice.delta.content :: WEvent.flush :: es)
          | RelayOutcome.panicked es =>
            RelayOutcome.panicked (WEvent.write choice.delta.content :: WEvent.flush :: es)
        else RelayOutcome.panicked [WEvent.write choice.delta.content]

/-- The fragments the streaming loop forwards: the non-empty first-choice
delta contents of the successfully decoded chunks, in decode order,
stopping at the first decode failure. -/
def fragments : List ChunkResult → List String
  | [] => []
  | ChunkResult.malformed :: _ => []
  | ChunkResult.ok chunk :: rest =>
    match chunk.choices with
    | [] => fragments rest
    | choice :: _ =>
      if choice.delta.content = "" then fragments rest
      else choice.delta.content :: fragments rest

/-- `queryExternalAPI` from main.go. The credential is the value of
`os.Getenv("TOGETHER_API_KEY")` (empty string when unset); `net` is the
oracle for `http.DefaultClient.Do`. -/
def queryExternalAPI (req : GenerationRequest) (apiKey : String)
    (isFlusher : Bool) (net : UpstreamRequest → Upstream) : QueryResult :=
  if apiKey = "" then
    QueryResult.ret []
      (some "API key not set in TOGETHER_API_KEY environment variable")
  else
    match net (buildUpstreamRequest req apiKey) with
    | Upstream.netError msg =>
      QueryResult.ret [] (some ("request failed: " ++ msg))
    | Upstream.ok _ streamView docView =>
      if req.stream then
        match relayChunks isFlusher streamView with
        | RelayOutcome.ok es => QueryResult.ret (streamHeaders ++ es) none
        | RelayOutcome.panicked es => QueryResult.panicked (streamHeaders ++ es)
      else
        match docView with
        | DecodeResult.error e =>
          QueryResult.ret [] (some ("failed to decode response: " ++ e))
        | DecodeResult.ok result =>
          match result.choices with
          | [] => QueryResult.ret [] (some "no choices returned")
          | choice :: _ =>
            QueryResult.ret
              [WEvent.writeResponse
                { model := req.model, response := choice.text, createdAt := "" }]
              none

/-- Go's `http.Error`: plain-text content type, nosniff, the status code,
and the message followed by a newline as body. -/
def httpError (msg : String) (code : Nat) : List WEvent :=
  [WEvent.setHeader "Content-Type" "text/plain; charset=utf-8",
   WEvent.setHeader "X-Content-Type-Options" "nosniff",
   WEvent.status code,
   WEvent.write (msg ++ "\n")]

/-- `generateHandler` from main.go. `body` is the outcome of decoding the
inbound JSON body into a `GenerationRequest`. -/
def generateHandler (method : String) (body : DecodeResult GenerationRequest)
    (apiKey : String) (isFlusher : Bool) (net : UpstreamRequest → Upstream) :
    HandlerOutcome :=
  let acao := WEvent.setHeader "Access-Control-Allow-Origin" "*"
  if method ≠ "POST" then
    HandlerOutcome.ret (acao :: httpError "Method not allowed" 405)
  else
    match body with
    | DecodeResult.error e => HandlerOutcome.ret (acao :: httpError e 400)
    | DecodeResult.ok req0 =>
      let req := applyDefaults req0
      match queryExternalAPI req apiKey isFlusher net with
      | QueryResult.ret es none => HandlerOutcome.ret (acao :: es)
      | QueryResult.ret es (some msg) =>
        HandlerOutcome.ret (acao :: (es ++ httpError msg 500))
      | QueryResult.panicked es => HandlerOutcome.panicked (acao :: es)

/-- The body bytes carried by a writer trace: raw writes verbatim, the
encoder write as the JSON encoding followed by a newline. -/
def bodyBytes : List WEvent → String
  | [] => ""
  | WEvent.write s :: es => s ++ bodyBytes es
  | WEvent.writeResponse r :: es =>
    encodeGenerationResponse r ++ "\n" ++ bodyBytes es
  | _ :: es => bodyBytes es

/-- The event trace "each fragment as its own write followed by a
flush", used to state what the streaming loop emits. -/
def writesOf : List String → List WEvent
  | [] => []
  | s :: rest => WEvent.write s :: WEvent.flush :: writesOf rest

/-- Concatenation of a list of strings in order. -/
def concatAll : List String → String
  | [] => ""
  | s :: rest => s ++ concatAll rest

/-- With a working flusher, the relay loop succeeds and emits exactly a
write-then-flush pair per forwarded fragment, in decode order. -/
theorem relayChunks_flusher (rs : List ChunkResult) :
    relayChunks true rs = RelayOutcome.ok (writesOf (fragments rs)) := by
  induction rs with
  | nil => rfl
  | cons r rest ih =>
    cases r with
    | malformed => rfl
    | ok chunk =>
      obtain ⟨choices⟩ := chunk
      cases choices with
      | nil => simpa [relayChunks, fragments] using ih
      | cons choice cs =>
        by_cases h : choice.delta.content = "" <;>
          simp [relayChunks, fragments, writesOf, h, ih]

/-- Without a flusher, the relay loop returns silently when no fragment
is forwarded, and panics on the first forwarded fragment after having
written it. -/
theorem relayChunks_noFlusher (rs : List ChunkResult) :
    relayChunks false rs =
      match fragments rs with
      | [] => RelayOutcome.ok []
      | s :: _ => RelayOutcome.panicked [WEvent.write s] := by
  induction rs with
  | nil => rfl
  | cons r rest ih =>
    cases r with
    | malformed => rfl
    | ok chunk =>
      obtain ⟨choices⟩ := chunk
      cases choices with
      | nil => simpa [relayChunks, fragments] using ih
      | cons choice cs =>
        by_cases h : choice.delta.content = "" <;>
          simp [relayChunks, fragments, h, ih]

/-- The fragments of a stream that fails to decode mid-way are exactly
the fragments of the well-formed prefix. -/
theorem fragments_append_malformed (pre rest : List ChunkResult)
    (hpre : ChunkResult.malformed ∉ pre) :
    fragments (pre ++ ChunkResult.malformed :: rest) = fragments pre := by
  induction pre with
  | nil => rfl
  | cons r pre ih =>
    cases r with
    | malformed => exact absurd (List.mem_cons_self _ _) hpre
    | ok chunk =>
      have hpre' : ChunkResult.malformed ∉ pre := fun h =>
        hpre (List.mem_cons_of_mem _ h)
      obtain ⟨choices⟩ := chunk
      cases choices with
      | nil => simpa [fragments] using ih hpre'
      | cons choice cs =>
        by_cases h : choice.delta.content = "" <;>
          simp [fragments, h, ih hpre']

theorem bodyBytes_append (a b : List WEvent) :
    bodyBytes (a ++ b) = bodyBytes a ++ bodyBytes b := by
  induction a with
  | nil => simp [bodyBytes]
  | cons e a ih =>
    cases e <;> simp [bodyBytes, ih, String.append_assoc]

/-- The bytes of the write-flush trace of a fragment list are their
concatenation in order. -/
theorem bodyBytes_writesOf (frags : List String) :
    bodyBytes (writesOf frags) = concatAll frags := by
  induction frags with
  | nil => rfl
  | cons s rest ih => simp [writesOf, bodyBytes, concatAll, ih]

theorem bodyBytes_streamHeaders : bodyBytes streamHeaders = "" := rfl

/-- Field-by-field characterization of the defaulting block: exactly the
zero-valued optional fields are rewritten, prompt and stream are kept. -/
theorem applyDefaults_spec (req : GenerationRequest) :
    applyDefaults req =
      { model := if req.model = "" then defaultModel else req.model
        prompt := req.prompt
        stream := req.stream
        maxTokens := if req.maxTokens = 0 then 512 else req.maxTokens
        temperature :=
          if req.temperature = 0 then (0.1 : Rat) else req.temperature } := by
  obtain ⟨m, p, s, mt, t⟩ := req
  simp only [applyDefaults]
  split_ifs <;> simp_all

theorem applyDefaults_stream (req : GenerationRequest) :
    (applyDefaults req).stream = req.stream := by
  rw [applyDefaults_spec]

/-- The streaming loop never emits an encoded `GenerationResponse`. -/
theorem writeResponse_not_mem_writesOf (frags : List String)
    (r : GenerationResponse) : WEvent.writeResponse r ∉ writesOf frags := by
  induction frags with
  | nil => simp [writesOf]
  | cons s rest ih => simp [writesOf, ih]

/-- Streaming branch with a working flusher: headers, then the
write-flush trace of the fragments, and a `nil` error return. -/
theorem query_stream_ok (req : GenerationRequest) (apiKey : String) (st : Nat)
    (sv : List ChunkResult) (dv : DecodeResult UpstreamResult)
    (hs : req.stream = true) (hk : apiKey ≠ "") :
    queryExternalAPI req apiKey true (fun _ => Upstream.ok st sv dv)
      = QueryResult.ret (streamHeaders ++ writesOf (fragments sv)) none := by
  simp [queryExternalAPI, hk, hs, relayChunks_flusher]

/-- C1: in streaming mode, after a successful upstream call the event
trace is exactly the three event-stream headers (Content-Type:
text/event-stream, Cache-Control: no-cache, Connection: keep-alive)
followed by, for each successfully decoded chunk with a non-empty
first-choice delta content, that fragment as its own write followed by a
flush, in decode order; the body bytes are exactly the concatenation of
those fragments, and chunks with no choices or empty content contribute
no bytes. -/
theorem stream_relay_exact (req : GenerationRequest) (apiKey : String)
    (st : Nat) (sv : List ChunkResult) (dv : DecodeResult UpstreamResult)
    (hs : req.stream = true) (hk : apiKey ≠ "") :
    queryExternalAPI req apiKey true (fun _ => Upstream.ok st sv dv)
        = QueryResult.ret (streamHeaders ++ writesOf (fragments sv)) none
      ∧ bodyBytes (streamHeaders ++ writesOf (fragments sv))
        = concatAll (fragments sv) := by
  refine ⟨query_stream_ok req apiKey st sv dv hs hk, ?_⟩
  rw [bodyBytes_append, bodyBytes_streamHeaders, bodyBytes_writesOf]
  simp

/-- Witness for C1: the spec's two-chunk example yields body Hi there as
two flushed writes under the event-stream headers. -/
theorem stream_relay_exact_witness :
    ((⟨"m", "p", true, 512, (0.1 : Rat)⟩ : GenerationRequest).stream = true
        ∧ ("k" : String) ≠ ""
        ∧ (queryExternalAPI ⟨"m", "p", true, 512, (0.1 : Rat)⟩ "k" true
              (fun _ => Upstream.ok 200
                [ChunkResult.ok ⟨[⟨⟨"Hi"⟩⟩]⟩, ChunkResult.ok ⟨[⟨⟨" there"⟩⟩]⟩]
                (DecodeResult.ok ⟨[]⟩))
              = QueryResult.ret
                  (streamHeaders ++ writesOf (fragments
                    [ChunkResult.ok ⟨[⟨⟨"Hi"⟩⟩]⟩,
                     ChunkResult.ok ⟨[⟨⟨" there"⟩⟩]⟩])) none
            ∧ bodyBytes (streamHeaders ++ writesOf (fragments
                [ChunkResult.ok ⟨[⟨⟨"Hi"⟩⟩]⟩,
                 ChunkResult.ok ⟨[⟨⟨" there"⟩⟩]⟩]))
              = concatAll (fragments
                [ChunkResult.ok ⟨[⟨⟨"Hi"⟩⟩]⟩,
                 ChunkResult.ok ⟨[⟨⟨" there"⟩⟩]⟩])))
    ∧ streamHeaders ++ writesOf (fragments
          [ChunkResult.ok ⟨[⟨⟨"Hi"⟩⟩]⟩, ChunkResult.ok ⟨[⟨⟨" there"⟩⟩]⟩])
        = [WEvent.setHeader "Content-Type" "text/event-stream",
           WEvent.setHeader "Cache-Control" "no-cache",
           WEvent.setHeader "Connection" "keep-alive",
           WEvent.write "Hi", WEvent.flush,
           WEvent.write " there", WEvent.flush]
    ∧ concatAll (fragments
          [ChunkResult.ok ⟨[⟨⟨"Hi"⟩⟩]⟩, ChunkResult.ok ⟨[⟨⟨" there"⟩⟩]⟩])
        = "Hi there" :=
  ⟨⟨rfl, by decide, stream_relay_exact _ "k" 200 _ _ rfl (by decide)⟩,
   by decide, by decide⟩

/-- C2: in streaming mode the relay stops at the first chunk that fails
to decode: the fragments of the well-formed prefix remain the whole
output, nothing after the malformed chunk is written, queryExternalAPI
returns nil so the handler appends no 500 body, and the outcome is a
normal return, not a panic. -/
theorem stream_decode_failure_truncates (req : GenerationRequest)
    (apiKey : String) (st : Nat) (pre rest : List ChunkResult)
    (dv : DecodeResult UpstreamResult)
    (hs : req.stream = true) (hk : apiKey ≠ "")
    (hpre : ChunkResult.malformed ∉ pre) :
    queryExternalAPI req apiKey true
        (fun _ => Upstream.ok st (pre ++ ChunkResult.malformed :: rest) dv)
        = QueryResult.ret (streamHeaders ++ writesOf (fragments pre)) none
      ∧ generateHandler "POST" (DecodeResult.ok req) apiKey true
          (fun _ => Upstream.ok st (pre ++ ChunkResult.malformed :: rest) dv)
        = HandlerOutcome.ret
            (WEvent.setHeader "Access-Control-Allow-Origin" "*"
              :: (streamHeaders ++ writesOf (fragments pre))) := by
  have hq := query_stream_ok req apiKey st
    (pre ++ ChunkResult.malformed :: rest) dv hs hk
  rw [fragments_append_malformed pre rest hpre] at hq
  have hds : (applyDefaults req).stream = true := by
    rw [applyDefaults_stream]; exact hs
  have hq' := query_stream_ok (applyDefaults req) apiKey st
    (pre ++ ChunkResult.malformed :: rest) dv hds hk
  rw [fragments_append_malformed pre rest hpre] at hq'
  exact ⟨hq, by simp [generateHandler, hq']⟩

/-- Witness for C2: one good chunk, then a malformed one, then a further
chunk: only the first fragment is written, with a nil error. -/
theorem stream_decode_failure_truncates_witness :
    ((⟨"m", "p", true, 512, (0.1 : Rat)⟩ : GenerationRequest).stream = true
        ∧ ("k" : String) ≠ ""
        ∧ ChunkResult.malformed ∉ [ChunkResult.ok (⟨[⟨⟨"Hi"⟩⟩]⟩ : UpstreamChunk)]
        ∧ (queryExternalAPI ⟨"m", "p", true, 512, (0.1 : Rat)⟩ "k" true
              (fun _ => Upstream.ok 200
                ([ChunkResult.ok ⟨[⟨⟨"Hi"⟩⟩]⟩] ++ ChunkResult.malformed
                  :: [ChunkResult.ok ⟨[⟨⟨"lost"⟩⟩]⟩])
                (DecodeResult.ok ⟨[]⟩))
              = QueryResult.ret
                  (streamHeaders
                    ++ writesOf (fragments [ChunkResult.ok ⟨[⟨⟨"Hi"⟩⟩]⟩])) none
            ∧ generateHandler "POST"
                (DecodeResult.ok ⟨"m", "p", true, 512, (0.1 : Rat)⟩) "k" true
                (fun _ => Upstream.ok 200
                  ([ChunkResult.ok ⟨[⟨⟨"Hi"⟩⟩]⟩] ++ ChunkResult.malformed
                    :: [ChunkResult.ok ⟨[⟨⟨"lost"⟩⟩]⟩])
                  (DecodeResult.ok ⟨[]⟩))
              = HandlerOutcome.ret
                  (WEvent.setHeader "Access-Control-Allow-Origin" "*"
                    :: (streamHeaders
                      ++ writesOf (fragments [ChunkResult.ok ⟨[⟨⟨"Hi"⟩⟩]⟩])))))
    ∧ writesOf (fragments [ChunkResult.ok (⟨[⟨⟨"Hi"⟩⟩]⟩ : UpstreamChunk)])
        = [WEvent.write "Hi", WEvent.flush] :=
  ⟨⟨rfl, by decide, by decide,
    stream_decode_failure_truncates _ "k" 200 _ _ _ rfl (by decide) (by decide)⟩,
   by decide⟩

/-- C3: every error-free completion writes exactly one of the two output
forms: in streaming mode no encoded GenerationResponse ever appears in
the trace (the raw streamed byte sequence is the only output), and in
non-streaming mode the trace is exactly one encoded GenerationResponse
— never both and never neither. -/
theorem exactly_one_output_form (req : GenerationRequest) (apiKey : String)
    (isFlusher : Bool) (net : UpstreamRequest → Upstream) (es : List WEvent)
    (h : queryExternalAPI req apiKey isFlusher net = QueryResult.ret es none) :
    (req.stream = true ∧ ∀ r, WEvent.writeResponse r ∉ es)
    ∨ (req.stream = false ∧ ∃ r, es = [WEvent.writeResponse r]) := by
  by_cases hk : apiKey = ""
  · simp [queryExternalAPI, hk] at h
  · rw [queryExternalAPI, if_neg hk] at h
    cases hnet : net (buildUpstreamRequest req apiKey) with
    | netError msg => rw [hnet] at h; simp at h
    | ok st sv dv =>
      rw [hnet] at h
      cases hstream : req.stream with
      | false =>
        rw [hstream] at h
        simp only [Bool.false_eq_true, if_false] at h
        cases dv with
        | error e => simp at h
        | ok result =>
          obtain ⟨choices⟩ := result
          cases choices with
          | nil => simp at h
          | cons c cs =>
            have h' : QueryResult.ret
                [WEvent.writeResponse ⟨req.model, c.text, ""⟩] none
                = QueryResult.ret es none := h
            injection h' with h1 h2
            exact Or.inr ⟨rfl, ⟨req.model, c.text, ""⟩, h1.symm⟩
      | true =>
        rw [hstream] at h
        simp only [if_true] at h
        cases hrel : relayChunks isFlusher sv with
        | panicked es' => rw [hrel] at h; simp at h
        | ok es' =>
          rw [hrel] at h
          simp only [QueryResult.ret.injEq] at h
          left
          refine ⟨rfl, fun r hmem => ?_⟩
          rw [← h.1] at hmem
          rcases List.mem_append.mp hmem with hmem | hmem
          · simp [streamHeaders] at hmem
          · cases isFlusher with
            | true =>
              rw [relayChunks_flusher] at hrel
              cases hrel
              exact writeResponse_not_mem_writesOf _ r hmem
            | false =>
              rw [relayChunks_noFlusher] at hrel
              cases hfr : fragments sv with
              | nil => rw [hfr] at hrel; cases hrel; simp at hmem
              | cons s srest => rw [hfr] at hrel; cases hrel

/-- Witness for C3: a non-streaming success writes exactly one encoded
GenerationResponse. -/
theorem exactly_one_output_form_witness :
    (queryExternalAPI ⟨"m", "p", false, 512, (0.1 : Rat)⟩ "k" true
        (fun _ => Upstream.ok 200 [] (DecodeResult.ok ⟨[⟨"hello"⟩]⟩))
        = QueryResult.ret
            [WEvent.writeResponse ⟨"m", "hello", ""⟩] none)
    ∧ (((⟨"m", "p", false, 512, (0.1 : Rat)⟩ : GenerationRequest).stream = true
          ∧ ∀ r, WEvent.writeResponse r
              ∉ [WEvent.writeResponse (⟨"m", "hello", ""⟩ : GenerationResponse)])
        ∨ ((⟨"m", "p", false, 512, (0.1 : Rat)⟩ : GenerationRequest).stream = false
          ∧ ∃ r, [WEvent.writeResponse (⟨"m", "hello", ""⟩ : GenerationResponse)]
              = [WEvent.writeResponse r])) :=
  ⟨by decide,
   exactly_one_output_form ⟨"m", "p", false, 512, (0.1 : Rat)⟩ "k" true
     (fun _ => Upstream.ok 200 [] (DecodeResult.ok ⟨[⟨"hello"⟩]⟩))
     [WEvent.writeResponse ⟨"m", "hello", ""⟩] (by decide)⟩

/-- Counterexample to C4 as stated: at model m and upstream text hello,
the body is not the bare JSON object — json.Encoder.Encode terminates
the value with a newline, so the body carries a trailing newline. -/
theorem nonstream_exact_body_counterexample :
    queryExternalAPI ⟨"m", "p", false, 512, (0.1 : Rat)⟩ "k" true
        (fun _ => Upstream.ok 200 [] (DecodeResult.ok ⟨[⟨"hello"⟩]⟩))
      = QueryResult.ret [WEvent.writeResponse ⟨"m", "hello", ""⟩] none
    ∧ bodyBytes [WEvent.writeResponse ⟨"m", "hello", ""⟩]
      = "\x7b\"model\":\"m\",\"response\":\"hello\"\x7d\n"
    ∧ bodyBytes [WEvent.writeResponse ⟨"m", "hello", ""⟩]
      ≠ "\x7b\"model\":\"m\",\"response\":\"hello\"\x7d" := by
  refine ⟨by decide, by decide, by decide⟩

/-- C4 amended: in non-streaming mode, an upstream body decoding to a
non-empty choices list yields exactly one encoded GenerationResponse
whose model is the requested model, whose response is the first choice's
text and whose created_at is empty and omitted; the body bytes are that
JSON object followed by the newline json.Encoder.Encode appends. -/
theorem nonstream_response_encoding (req : GenerationRequest)
    (apiKey : String) (isFlusher : Bool) (st : Nat) (sv : List ChunkResult)
    (c : TextChoice) (cs : List TextChoice)
    (hs : req.stream = false) (hk : apiKey ≠ "") :
    queryExternalAPI req apiKey isFlusher
        (fun _ => Upstream.ok st sv (DecodeResult.ok ⟨c :: cs⟩))
        = QueryResult.ret
            [WEvent.writeResponse ⟨req.model, c.text, ""⟩] none
      ∧ bodyBytes [WEvent.writeResponse ⟨req.model, c.text, ""⟩]
        = encodeGenerationResponse ⟨req.model, c.text, ""⟩ ++ "\n" := by
  constructor
  · simp [queryExternalAPI, hk, hs]
  · show encodeGenerationResponse _ ++ "\n" ++ bodyBytes [] = _
    simp [bodyBytes]

/-- Witness for C4 amended: the spec's example evaluates to the JSON
object body followed by a newline. -/
theorem nonstream_response_encoding_witness :
    ((⟨"m", "p", false, 512, (0.1 : Rat)⟩ : GenerationRequest).stream = false
        ∧ ("k" : String) ≠ ""
        ∧ (queryExternalAPI ⟨"m", "p", false, 512, (0.1 : Rat)⟩ "k" true
              (fun _ => Upstream.ok 200 [] (DecodeResult.ok ⟨[⟨"hello"⟩]⟩))
              = QueryResult.ret
                  [WEvent.writeResponse ⟨"m", "hello", ""⟩] none
            ∧ bodyBytes [WEvent.writeResponse ⟨"m", "hello", ""⟩]
              = encodeGenerationResponse ⟨"m", "hello", ""⟩ ++ "\n"))
    ∧ encodeGenerationResponse ⟨"m", "hello", ""⟩ ++ "\n"
        = "\x7b\"model\":\"m\",\"response\":\"hello\"\x7d\n" :=
  ⟨⟨rfl, by decide, nonstream_response_encoding _ "k" true 200 [] _ _ rfl (by decide)⟩,
   by decide⟩

/-- C5: in non-streaming mode an upstream body decoding to an empty
choices list makes queryExternalAPI return the no-choices error, and the
handler answers 500 with that error text; no GenerationResponse is
written. -/
theorem nonstream_empty_choices_500 (req : GenerationRequest)
    (apiKey : String) (isFlusher : Bool) (st : Nat) (sv : List ChunkResult)
    (hs : req.stream = false) (hk : apiKey ≠ "") :
    queryExternalAPI req apiKey isFlusher
        (fun _ => Upstream.ok st sv (DecodeResult.ok ⟨[]⟩))
        = QueryResult.ret [] (some "no choices returned")
      ∧ generateHandler "POST" (DecodeResult.ok req) apiKey isFlusher
          (fun _ => Upstream.ok st sv (DecodeResult.ok ⟨[]⟩))
        = HandlerOutcome.ret
            (WEvent.setHeader "Access-Control-Allow-Origin" "*"
              :: httpError "no choices returned" 500)
      ∧ ∀ r, WEvent.writeResponse r
          ∉ WEvent.setHeader "Access-Control-Allow-Origin" "*"
              :: httpError "no choices returned" 500 := by
  have hds : (applyDefaults req).stream = false := by
    rw [applyDefaults_stream]; exact hs
  refine ⟨by simp [queryExternalAPI, hk, hs], ?_, ?_⟩
  · simp [generateHandler, queryExternalAPI, hk, hds, httpError]
  · intro r; simp [httpError]

/-- Witness for C5: concrete empty-choices upstream reply. -/
theorem nonstream_empty_choices_500_witness :
    ((⟨"m", "p", false, 512, (0.1 : Rat)⟩ : GenerationRequest).stream = false
        ∧ ("k" : String) ≠ ""
        ∧ (queryExternalAPI ⟨"m", "p", false, 512, (0.1 : Rat)⟩ "k" true
              (fun _ => Upstream.ok 200 [] (DecodeResult.ok ⟨[]⟩))
              = QueryResult.ret [] (some "no choices returned")
            ∧ generateHandler "POST"
                (DecodeResult.ok ⟨"m", "p", false, 512, (0.1 : Rat)⟩) "k" true
                (fun _ => Upstream.ok 200 [] (DecodeResult.ok ⟨[]⟩))
              = HandlerOutcome.ret
                  (WEvent.setHeader "Access-Control-Allow-Origin" "*"
                    :: httpError "no choices returned" 500)
            ∧ ∀ r, WEvent.writeResponse r
                ∉ WEvent.setHeader "Access-Control-Allow-Origin" "*"
                    :: httpError "no choices returned" 500)) :=
  ⟨rfl, by decide, nonstream_empty_choices_500 _ "k" true 200 [] rfl (by decide)⟩

/-- C6: the defaulting block rewrites exactly the zero-valued optional
fields — empty model to the fixed default identifier, zero max_tokens to
512, zero temperature to 0.1 (conflating an explicit zero with unset) —
and leaves prompt, stream and every non-zero value unchanged. -/
theorem defaults_rewrite_exactly (req : GenerationRequest) :
    applyDefaults req =
      { model := if req.model = "" then defaultModel else req.model
        prompt := req.prompt
        stream := req.stream
        maxTokens := if req.maxTokens = 0 then 512 else req.maxTokens
        temperature :=
          if req.temperature = 0 then (0.1 : Rat)
          else req.temperature } :=
  applyDefaults_spec req

/-- C7: with an absent credential (empty TOGETHER_API_KEY), for every
request, streaming or not, queryExternalAPI returns the configuration
error, the result is the same whatever the network would answer (so no
upstream request is issued), and the handler answers 500 with that error
text. -/
theorem missing_key_fails_fast (req : GenerationRequest) (isFlusher : Bool)
    (net net' : UpstreamRequest → Upstream) :
    queryExternalAPI req "" isFlusher net
        = QueryResult.ret []
            (some "API key not set in TOGETHER_API_KEY environment variable")
      ∧ queryExternalAPI req "" isFlusher net
        = queryExternalAPI req "" isFlusher net'
      ∧ generateHandler "POST" (DecodeResult.ok req) "" isFlusher net
        = HandlerOutcome.ret
            (WEvent.setHeader "Access-Control-Allow-Origin" "*"
              :: httpError
                "API key not set in TOGETHER_API_KEY environment variable"
                500) := by
  refine ⟨by simp [queryExternalAPI], by simp [queryExternalAPI], ?_⟩
  simp [generateHandler, queryExternalAPI]

/-- C8: the upstream HTTP status code is never inspected: the result is
identical for any two status codes on otherwise equal responses, and a
non-2xx reply (here 401) whose body decodes into the expected shape is
relayed as an error-free encoded success; a body that does not decode
surfaces only as the generic decode error. -/
theorem upstream_status_ignored (req : GenerationRequest) (apiKey : String)
    (isFlusher : Bool) (s1 s2 st : Nat) (sv : List ChunkResult)
    (c : TextChoice) (cs : List TextChoice) (e : String)
    (hk : apiKey ≠ "") :
    (∀ (f : Bool) (sv' : List ChunkResult) (dv' : DecodeResult UpstreamResult),
        queryExternalAPI req apiKey f (fun _ => Upstream.ok s1 sv' dv')
          = queryExternalAPI req apiKey f (fun _ => Upstream.ok s2 sv' dv'))
    ∧ queryExternalAPI { req with stream := false } apiKey isFlusher
          (fun _ => Upstream.ok st sv (DecodeResult.ok ⟨c :: cs⟩))
        = QueryResult.ret
            [WEvent.writeResponse ⟨req.model, c.text, ""⟩] none
    ∧ queryExternalAPI { req with stream := false } apiKey isFlusher
          (fun _ => Upstream.ok st sv (DecodeResult.error e))
        = QueryResult.ret [] (some ("failed to decode response: " ++ e)) := by
  refine ⟨fun f sv' dv' => rfl, ?_, ?_⟩ <;> simp [queryExternalAPI, hk]

/-- Witness for C8: a 401 upstream reply with a well-shaped body is
relayed as an error-free success. -/
theorem upstream_status_ignored_witness :
    ("k" : String) ≠ ""
    ∧ ((∀ (f : Bool) (sv' : List ChunkResult)
          (dv' : DecodeResult UpstreamResult),
          queryExternalAPI ⟨"m", "p", false, 512, (0.1 : Rat)⟩ "k" f
              (fun _ => Upstream.ok 401 sv' dv')
            = queryExternalAPI ⟨"m", "p", false, 512, (0.1 : Rat)⟩ "k" f
              (fun _ => Upstream.ok 200 sv' dv'))
        ∧ queryExternalAPI
              ({ (⟨"m", "p", false, 512, (0.1 : Rat)⟩ : GenerationRequest)
                  with stream := false }) "k" true
              (fun _ => Upstream.ok 401 []
                (DecodeResult.ok ⟨[⟨"hello"⟩]⟩))
            = QueryResult.ret
                [WEvent.writeResponse ⟨"m", "hello", ""⟩] none
        ∧ queryExternalAPI
              ({ (⟨"m", "p", false, 512, (0.1 : Rat)⟩ : GenerationRequest)
                  with stream := false }) "k" true
              (fun _ => Upstream.ok 401 [] (DecodeResult.error "bad"))
            = QueryResult.ret []
                (some ("failed to decode response: " ++ "bad"))) :=
  ⟨by decide,
   upstream_status_ignored ⟨"m", "p", false, 512, (0.1 : Rat)⟩ "k" true
     401 200 401 [] ⟨"hello"⟩ [] "bad" (by decide)⟩

/-- C9: when the writer is not an http.Flusher the discarded type
assertion leaves a nil flusher; the first decoded chunk with a non-empty
first-choice content is written and the following Flush call panics, at
the query and at the handler level. -/
theorem missing_flusher_panics (req : GenerationRequest) (apiKey : String)
    (st : Nat) (sv : List ChunkResult) (dv : DecodeResult UpstreamResult)
    (hs : req.stream = true) (hk : apiKey ≠ "") (hf : fragments sv ≠ []) :
    queryExternalAPI req apiKey false (fun _ => Upstream.ok st sv dv)
        = QueryResult.panicked
            (streamHeaders ++ [WEvent.write ((fragments sv).headD "")])
      ∧ generateHandler "POST" (DecodeResult.ok req) apiKey false
          (fun _ => Upstream.ok st sv dv)
        = HandlerOutcome.panicked
            (WEvent.setHeader "Access-Control-Allow-Origin" "*"
              :: (streamHeaders
                ++ [WEvent.write ((fragments sv).headD "")])) := by
  cases hfr : fragments sv with
  | nil => exact absurd hfr hf
  | cons s srest =>
    have hrel : relayChunks false sv
        = RelayOutcome.panicked [WEvent.write s] := by
      rw [relayChunks_noFlusher, hfr]
    have hq : queryExternalAPI req apiKey false
        (fun _ => Upstream.ok st sv dv)
        = QueryResult.panicked (streamHeaders ++ [WEvent.write s]) := by
      simp [queryExternalAPI, hk, hs, hrel]
    have hds : (applyDefaults req).stream = true := by
      rw [applyDefaults_stream]; exact hs
    have hq' : queryExternalAPI (applyDefaults req) apiKey false
        (fun _ => Upstream.ok st sv dv)
        = QueryResult.panicked (streamHeaders ++ [WEvent.write s]) := by
      simp [queryExternalAPI, hk, hds, hrel]
    simp only [List.headD_cons]
    exact ⟨hq, by simp [generateHandler, hq']⟩

/-- Witness for C9: one chunk with content Hi and no flusher: the write
happens and the handler panics. -/
theorem missing_flusher_panics_witness :
    ((⟨"m", "p", true, 512, (0.1 : Rat)⟩ : GenerationRequest).stream = true
        ∧ ("k" : String) ≠ ""
        ∧ fragments [ChunkResult.ok (⟨[⟨⟨"Hi"⟩⟩]⟩ : UpstreamChunk)] ≠ []
        ∧ (queryExternalAPI ⟨"m", "p", true, 512, (0.1 : Rat)⟩ "k" false
              (fun _ => Upstream.ok 200 [ChunkResult.ok ⟨[⟨⟨"Hi"⟩⟩]⟩]
                (DecodeResult.ok ⟨[]⟩))
              = QueryResult.panicked
                  (streamHeaders ++ [WEvent.write
                    ((fragments [ChunkResult.ok
                      (⟨[⟨⟨"Hi"⟩⟩]⟩ : UpstreamChunk)]).headD "")])
            ∧ generateHandler "POST"
                (DecodeResult.ok ⟨"m", "p", true, 512, (0.1 : Rat)⟩) "k" false
                (fun _ => Upstream.ok 200 [ChunkResult.ok ⟨[⟨⟨"Hi"⟩⟩]⟩]
                  (DecodeResult.ok ⟨[]⟩))
              = HandlerOutcome.panicked
                  (WEvent.setHeader "Access-Control-Allow-Origin" "*"
                    :: (streamHeaders ++ [WEvent.write
                      ((fragments [ChunkResult.ok
                        (⟨[⟨⟨"Hi"⟩⟩]⟩ : UpstreamChunk)]).headD "")]))))
    ∧ (fragments [ChunkResult.ok (⟨[⟨⟨"Hi"⟩⟩]⟩ : UpstreamChunk)]).headD ""
        = "Hi" :=
  ⟨⟨rfl, by decide, by decide,
    missing_flusher_panics _ "k" 200 _ _ rfl (by decide) (by decide)⟩,
   by decide⟩

/-- C10: a streamed chunk carrying two or more choices contributes only
the delta content of its first choice: the relay outcome and the
forwarded fragments are the same as for the chunk reduced to its first
choice alone, and the chunk contributes the first-choice content exactly
when it is non-empty. -/
theorem multi_choice_first_only (isFlusher : Bool) (c : StreamChoice)
    (cs : List StreamChoice) (rs : List ChunkResult) (_hcs : cs ≠ []) :
    relayChunks isFlusher (ChunkResult.ok ⟨c :: cs⟩ :: rs)
        = relayChunks isFlusher (ChunkResult.ok ⟨[c]⟩ :: rs)
      ∧ fragments (ChunkResult.ok ⟨c :: cs⟩ :: rs)
        = fragments (ChunkResult.ok ⟨[c]⟩ :: rs)
      ∧ fragments (ChunkResult.ok ⟨c :: cs⟩ :: rs)
        = (if c.delta.content = "" then fragments rs
           else c.delta.content :: fragments rs) :=
  ⟨rfl, rfl, rfl⟩

/-- Witness for C10: a chunk with choices a and b forwards only a. -/
theorem multi_choice_first_only_witness :
    ([(⟨⟨"b"⟩⟩ : StreamChoice)] ≠ [])
    ∧ (relayChunks true
          (ChunkResult.ok ⟨[⟨⟨"a"⟩⟩, ⟨⟨"b"⟩⟩]⟩ :: [])
          = relayChunks true (ChunkResult.ok ⟨[⟨⟨"a"⟩⟩]⟩ :: [])
        ∧ fragments (ChunkResult.ok ⟨[⟨⟨"a"⟩⟩, ⟨⟨"b"⟩⟩]⟩ :: [])
          = fragments (ChunkResult.ok ⟨[⟨⟨"a"⟩⟩]⟩ :: [])
        ∧ fragments (ChunkResult.ok ⟨[⟨⟨"a"⟩⟩, ⟨⟨"b"⟩⟩]⟩ :: [])
          = (if (⟨⟨"a"⟩⟩ : StreamChoice).delta.content = "" then fragments []
             else (⟨⟨"a"⟩⟩ : StreamChoice).delta.content :: fragments []))
    ∧ fragments (ChunkResult.ok ⟨[⟨⟨"a"⟩⟩, ⟨⟨"b"⟩⟩]⟩ :: []) = ["a"] :=
  ⟨by decide,
   multi_choice_first_only true ⟨⟨"a"⟩⟩ [⟨⟨"b"⟩⟩] [] (by decide),
   by decide⟩

end GoTogether
